import Mathlib

/-!
# Verification of `logger.go` (FZambia/go-logger)

A shallow embedding of the level-gated multiplexing logger from
`src/logger.go`.  The Go package keeps global mutable state (two
thresholds, two sink handles, a flag word, and seven `NotePad`
writers); we model that state as an explicit `State` record and each
exported operation as a function on `State`.  Writing to an
`io.Writer` is modelled symbolically: an emission either produces a
`Write` record (destination handle, prefix tag, flag word, message) or
nothing at all when the `checkLevel` guard short-circuits.  Process
termination (`os.Exit` inside `log.Logger.Fatal`) and `panic` are
modelled as distinct constructors of an `Outcome` type.
-/

set_option autoImplicit false

namespace GoLogger

/-- `type Level int` — Go severity levels are plain machine integers. -/
abbrev Level := Int

/-- `LevelTrace Level = iota` (= 0). -/
def LevelTrace : Int := 0

/-- `LevelDebug` (= 1). -/
def LevelDebug : Int := 1

/-- `LevelInfo` (= 2). -/
def LevelInfo : Int := 2

/-- `LevelWarn` (= 3). -/
def LevelWarn : Int := 3

/-- `LevelError` (= 4). -/
def LevelError : Int := 4

/-- `LevelCritical` (= 5). -/
def LevelCritical : Int := 5

/-- `LevelFatal` (= 6). -/
def LevelFatal : Int := 6

/-- `LevelNone` (= 7), a sentinel used only as a threshold value. -/
def LevelNone : Int := 7

/-- `DefaultLogThreshold = LevelInfo`. -/
def DefaultLogThreshold : Int := LevelInfo

/-- `DefaultStdoutThreshold = LevelInfo`. -/
def DefaultStdoutThreshold : Int := LevelInfo

/-- Symbolic `io.Writer` values occurring in the package:
`ioutil.Discard`, `os.Stdout`, a file opened by `SetLogFile`
(identified by a numeric handle id), and `io.MultiWriter(a, b)`. -/
inductive Handle where
  | discard : Handle
  | stdout : Handle
  | file (fid : Nat) : Handle
  | multi (a b : Handle) : Handle
deriving DecidableEq, Repr

/-- A Go `*log.Logger` as produced by `log.New(out, prefix, flag)`:
it is fully determined by the three constructor arguments.  The Go
field `Prefix` is called `tag` here. -/
structure StdLogger where
  out : Handle
  tag : String
  flag : Nat
deriving DecidableEq, Repr

/-- The Go `NotePad` struct: `Handle io.Writer; Level Level;
Prefix string; Logger *log.Logger`.  The field `Prefix` is called
`tag` here. -/
structure NotePad where
  handle : Handle
  level : Int
  tag : String
  logger : StdLogger
deriving DecidableEq, Repr

/-- The package-level mutable state of `logger.go`: the two sink
handles (`LogHandle`, `OutHandle`), the `Flag` word, the two
thresholds, and the seven per-level `NotePad` globals
(`TRACE` … `FATAL`). -/
structure State where
  logHandle : Handle
  outHandle : Handle
  flag : Nat
  logThreshold : Int
  outputThreshold : Int
  trace : NotePad
  debug : NotePad
  info : NotePad
  warn : NotePad
  error : NotePad
  critical : NotePad
  fatal : NotePad
deriving DecidableEq, Repr

/-- The `NotePads` slice: `[]*NotePad{TRACE, DEBUG, INFO, WARN,
ERROR, CRITICAL, FATAL}`. -/
def State.notePads (s : State) : List NotePad :=
  [s.trace, s.debug, s.info, s.warn, s.error, s.critical, s.fatal]

/-- The per-`NotePad` body of the two loops in `initialize`: the
four-way `if` chain picking the new `Handle` (with
`BothHandle = io.MultiWriter(LogHandle, OutHandle)`), followed by
`n.Logger = log.New(n.Handle, n.Prefix, Flag)`. -/
def rebuildPad (s : State) (n : NotePad) : NotePad :=
  let h : Handle :=
    if n.level < s.outputThreshold ∧ n.level < s.logThreshold then
      Handle.discard
    else if s.outputThreshold ≤ n.level ∧ s.logThreshold ≤ n.level then
      Handle.multi s.logHandle s.outHandle
    else if s.outputThreshold ≤ n.level ∧ n.level < s.logThreshold then
      s.outHandle
    else
      s.logHandle
  { n with handle := h, logger := { out := h, tag := n.tag, flag := s.flag } }

/-- `initialize()`: rebuilds every `NotePad` from the current
thresholds, sink handles and flag word. -/
def rebuildAll (s : State) : State :=
  { s with
    trace := rebuildPad s s.trace
    debug := rebuildPad s s.debug
    info := rebuildPad s s.info
    warn := rebuildPad s s.warn
    error := rebuildPad s s.error
    critical := rebuildPad s s.critical
    fatal := rebuildPad s s.fatal }

/-- The four possible outcomes of the writer-resolution rule in
`initialize`, named after the branch taken. -/
inductive Resolution where
  | discard : Resolution
  | both : Resolution
  | consoleOnly : Resolution
  | logOnly : Resolution
deriving DecidableEq, Repr

/-- The branch structure of the `if` chain in `initialize`, recorded
as a `Resolution` instead of a `Handle`. -/
def resolve (logT outT lvl : Int) : Resolution :=
  if lvl < outT ∧ lvl < logT then Resolution.discard
  else if outT ≤ lvl ∧ logT ≤ lvl then Resolution.both
  else if outT ≤ lvl ∧ lvl < logT then Resolution.consoleOnly
  else Resolution.logOnly

/-- The handle each `Resolution` branch assigns in `initialize`. -/
def handleFor (r : Resolution) (logH outH : Handle) : Handle :=
  match r with
  | Resolution.discard => Handle.discard
  | Resolution.both => Handle.multi logH outH
  | Resolution.consoleOnly => outH
  | Resolution.logOnly => logH

/-- Whether writing to handle `h` reaches the sink `t`
(`io.MultiWriter` fans out to both of its arguments). -/
def reaches (h t : Handle) : Bool :=
  match h with
  | Handle.multi a b => (Handle.multi a b == t) || reaches a t || reaches b t
  | h' => h' == t

/-- `checkLevel`: returns `false` iff the pad's level is strictly
below both package-level thresholds. -/
def checkLevel (logT outT : Int) (n : NotePad) : Bool :=
  if n.level < outT ∧ n.level < logT then false else true

/-- The three message shapes of the `log` package API, kept
unformatted: `Print` (values), `Printf` (format + values),
`Println` (values + newline). -/
inductive Msg where
  | print (vs : List String) : Msg
  | printf (format : String) (vs : List String) : Msg
  | println (vs : List String) : Msg
deriving DecidableEq, Repr

/-- One physical write performed by a `*log.Logger`: it goes to the
logger's captured output with the logger's captured prefix tag and
flag word. -/
structure Write where
  dest : Handle
  tag : String
  flag : Nat
  msg : Msg
deriving DecidableEq, Repr

/-- The write a `NotePad`'s embedded logger performs for message `m`. -/
def mkWrite (n : NotePad) (m : Msg) : Write :=
  { dest := n.logger.out, tag := n.logger.tag, flag := n.logger.flag, msg := m }

/-- `NotePad.Print`: the `checkLevel` short-circuit, then
`n.Logger.Print(v...)`.  `none` means the call returned without any
formatting or writing. -/
def Print (logT outT : Int) (n : NotePad) (vs : List String) :
    Option Write :=
  if checkLevel logT outT n then some (mkWrite n (Msg.print vs)) else none

/-- `NotePad.Printf`. -/
def Printf (logT outT : Int) (n : NotePad) (format : String)
    (vs : List String) : Option Write :=
  if checkLevel logT outT n then some (mkWrite n (Msg.printf format vs))
  else none

/-- `NotePad.Println`. -/
def Println (logT outT : Int) (n : NotePad) (vs : List String) :
    Option Write :=
  if checkLevel logT outT n then some (mkWrite n (Msg.println vs)) else none

/-- Result of a fatal- or abort-variant call: either the guard
short-circuited (`noop`), or the message was written and the process
exited with the given status (`exited`, from `os.Exit(1)` inside
`log.Logger.Fatal*`), or the message was written and a panic unwound
the stack (`panicked`). -/
inductive Outcome where
  | noop : Outcome
  | exited (status : Nat) (w : Write) : Outcome
  | panicked (w : Write) : Outcome
deriving DecidableEq, Repr

/-- `NotePad.Fatal`: `checkLevel` guard, then `n.Logger.Fatal(v...)`
(= write then `os.Exit(1)`). -/
def Fatal (logT outT : Int) (n : NotePad) (vs : List String) : Outcome :=
  if checkLevel logT outT n then Outcome.exited 1 (mkWrite n (Msg.print vs))
  else Outcome.noop

/-- `NotePad.Fatalf`. -/
def Fatalf (logT outT : Int) (n : NotePad) (format : String)
    (vs : List String) : Outcome :=
  if checkLevel logT outT n then
    Outcome.exited 1 (mkWrite n (Msg.printf format vs))
  else Outcome.noop

/-- `NotePad.Fatalln`. -/
def Fatalln (logT outT : Int) (n : NotePad) (vs : List String) : Outcome :=
  if checkLevel logT outT n then Outcome.exited 1 (mkWrite n (Msg.println vs))
  else Outcome.noop

/-- `NotePad.Panic`: `checkLevel` guard, then `n.Logger.Panic(v...)`
(= write then `panic`). -/
def Panic (logT outT : Int) (n : NotePad) (vs : List String) : Outcome :=
  if checkLevel logT outT n then Outcome.panicked (mkWrite n (Msg.print vs))
  else Outcome.noop

/-- `NotePad.Panicf`. -/
def Panicf (logT outT : Int) (n : NotePad) (format : String)
    (vs : List String) : Outcome :=
  if checkLevel logT outT n then
    Outcome.panicked (mkWrite n (Msg.printf format vs))
  else Outcome.noop

/-- `NotePad.Panicln`. -/
def Panicln (logT outT : Int) (n : NotePad) (vs : List String) : Outcome :=
  if checkLevel logT outT n then Outcome.panicked (mkWrite n (Msg.println vs))
  else Outcome.noop

/-- `levelCheck`: clamps a level into `[LevelTrace, LevelFatal]`. -/
def levelCheck (level : Int) : Int :=
  if level ≤ LevelTrace then LevelTrace
  else if LevelFatal ≤ level then LevelFatal
  else level

/-- `SetLogThreshold(level)`. -/
def SetLogThreshold (s : State) (level : Int) : State :=
  rebuildAll { s with logThreshold := levelCheck level }

/-- `SetStdoutThreshold(level)`. -/
def SetStdoutThreshold (s : State) (level : Int) : State :=
  rebuildAll { s with outputThreshold := levelCheck level }

/-- `SetLogFlag(flag)`. -/
def SetLogFlag (s : State) (flag : Nat) : State :=
  rebuildAll { s with flag := flag }

/-- The environment's answer to `os.OpenFile(path, …)`: a fresh file
handle id, or an error message. -/
inductive OpenResult where
  | ok (fid : Nat) : OpenResult
  | err (e : String) : OpenResult
deriving DecidableEq, Repr

/-- `SetLogFile(path)`.  The open result is an input (the file system
is outside the program).  Returns the new state, the diagnostic write
produced on the error path (`CRITICAL.Println("Failed to open log
file:", path, err)`), and the returned `error` value. -/
def SetLogFile (s : State) (path : String) (r : OpenResult) :
    State × Option Write × Option String :=
  match r with
  | OpenResult.err e =>
      (s,
       Println s.logThreshold s.outputThreshold s.critical
         ["Failed to open log file:", path, e],
       some e)
  | OpenResult.ok fid =>
      (rebuildAll { s with logHandle := Handle.file fid }, none, none)

/-- `log.Ldate` (= 1). -/
def Ldate : Nat := 1

/-- `log.Ltime` (= 2). -/
def Ltime : Nat := 2

/-- A `NotePad` as declared at package level, before `init()` runs:
`Handle: os.Stdout`, the given level and prefix tag, and the nil
`logger` variable (modelled as a zero-valued `StdLogger`). -/
def initialNotePad (lvl : Int) (tag : String) : NotePad :=
  { handle := Handle.stdout, level := lvl, tag := tag,
    logger := { out := Handle.discard, tag := "", flag := 0 } }

/-- The package-level variable declarations before `init()` runs:
`LogHandle = ioutil.Discard`, `OutHandle = os.Stdout`,
`Flag = log.Ldate | log.Ltime`, default thresholds, and the seven
pads `TRACE` … `FATAL` with their prefixes. -/
def preInitState : State :=
  { logHandle := Handle.discard
    outHandle := Handle.stdout
    flag := Nat.lor Ldate Ltime
    logThreshold := DefaultLogThreshold
    outputThreshold := DefaultStdoutThreshold
    trace := initialNotePad LevelTrace "[T]: "
    debug := initialNotePad LevelDebug "[D]: "
    info := initialNotePad LevelInfo "[I]: "
    warn := initialNotePad LevelWarn "[W]: "
    error := initialNotePad LevelError "[E]: "
    critical := initialNotePad LevelCritical "[C]: "
    fatal := initialNotePad LevelFatal "[F]: " }

/-- The state after the package's `init()` (which calls
`initialize()`). -/
def initialState : State := rebuildAll preInitState

/-- The `LevelMatches` map, as the ordered list of its entries as
written in the source. -/
def LevelMatches : List (String × Int) :=
  [("TRACE", LevelTrace),
   ("DEBUG", LevelDebug),
   ("INFO", LevelInfo),
   ("WARN", LevelWarn),
   ("ERROR", LevelError),
   ("CRITICAL", LevelCritical),
   ("FATAL", LevelFatal),
   ("NONE", LevelNone)]

end GoLogger

namespace GoLogger

/-! ## Helper lemmas -/

/-- `rebuildPad` never touches a pad's level. -/
theorem rebuildPad_level (s : State) (n : NotePad) :
    (rebuildPad s n).level = n.level := rfl

/-- `rebuildPad` never touches a pad's prefix tag. -/
theorem rebuildPad_tag (s : State) (n : NotePad) :
    (rebuildPad s n).tag = n.tag := rfl

/-- `rebuildPad` overwrites `handle` and `logger` and reads only the
pad's level and tag, so an earlier rebuild (against any state) is
absorbed. -/
theorem rebuildPad_absorb (s s' : State) (n : NotePad) :
    rebuildPad s (rebuildPad s' n) = rebuildPad s n := rfl

/-- Resolution of the `if` chain of `resolve`, as four disjoint
inequality characterisations. -/
theorem resolve_eq_iff (logT outT lvl : Int) :
    (resolve logT outT lvl = Resolution.discard ↔
      lvl < logT ∧ lvl < outT) ∧
    (resolve logT outT lvl = Resolution.both ↔
      logT ≤ lvl ∧ outT ≤ lvl) ∧
    (resolve logT outT lvl = Resolution.consoleOnly ↔
      outT ≤ lvl ∧ lvl < logT) ∧
    (resolve logT outT lvl = Resolution.logOnly ↔
      logT ≤ lvl ∧ lvl < outT) := by
  unfold resolve
  split_ifs with h1 h2 h3 <;> refine ⟨?_, ?_, ?_, ?_⟩ <;>
    simp only [reduceCtorEq, false_iff, true_iff, iff_true, iff_false,
      not_and, not_lt] <;>
    omega

/-- Every handle reaches itself. -/
theorem reaches_self (h : Handle) : reaches h h = true := by
  cases h <;> simp [reaches]

end GoLogger

namespace GoLogger

/-- The pair of a pad's fields that no configuration operation may
touch: its level and its prefix tag. -/
def padSig (n : NotePad) : Int × String := (n.level, n.tag)

/-- C1: after a rebuild, each Writer's handle is given by the four-way
resolution rule, and the rule yields: discard iff the level is below
both thresholds; the combined sink iff at or above both; the console
sink only iff at or above the stdout threshold and below the log
threshold; the log sink only iff at or above the log threshold and
below the stdout threshold. -/
theorem writer_resolution_four_way (s : State) (n : NotePad) :
    (rebuildAll s).notePads = s.notePads.map (rebuildPad s) ∧
    (rebuildPad s n).handle =
      handleFor (resolve s.logThreshold s.outputThreshold n.level)
        s.logHandle s.outHandle ∧
    (resolve s.logThreshold s.outputThreshold n.level = Resolution.discard ↔
      n.level < s.logThreshold ∧ n.level < s.outputThreshold) ∧
    (resolve s.logThreshold s.outputThreshold n.level = Resolution.both ↔
      s.logThreshold ≤ n.level ∧ s.outputThreshold ≤ n.level) ∧
    (resolve s.logThreshold s.outputThreshold n.level = Resolution.consoleOnly ↔
      s.outputThreshold ≤ n.level ∧ n.level < s.logThreshold) ∧
    (resolve s.logThreshold s.outputThreshold n.level = Resolution.logOnly ↔
      s.logThreshold ≤ n.level ∧ n.level < s.outputThreshold) := by
  refine ⟨rfl, ?_,
    (resolve_eq_iff s.logThreshold s.outputThreshold n.level).1,
    (resolve_eq_iff s.logThreshold s.outputThreshold n.level).2.1,
    (resolve_eq_iff s.logThreshold s.outputThreshold n.level).2.2.1,
    (resolve_eq_iff s.logThreshold s.outputThreshold n.level).2.2.2⟩
  unfold rebuildPad resolve handleFor
  split_ifs <;> rfl

/-- C3: an emission call at a level strictly below both thresholds is
a no-op: `Print`, `Printf` and `Println` all return without producing
any write (and hence without any formatting work). -/
theorem emit_below_both_thresholds_noop (logT outT : Int) (n : NotePad)
    (format : String) (vs : List String)
    (h1 : n.level < logT) (h2 : n.level < outT) :
    Print logT outT n vs = none ∧
    Printf logT outT n format vs = none ∧
    Println logT outT n vs = none := by
  have hc : checkLevel logT outT n = false := by
    unfold checkLevel
    split_ifs with h
    · rfl
    · exact absurd ⟨h2, h1⟩ h
  simp [Print, Printf, Println, hc]

/-- Witness for C3 at a concrete input: the Trace-level pad of the
freshly initialised state, under the default thresholds. -/
theorem emit_below_both_thresholds_noop_witness :
    initialState.trace.level < DefaultLogThreshold ∧
    initialState.trace.level < DefaultStdoutThreshold ∧
    (Print DefaultLogThreshold DefaultStdoutThreshold initialState.trace
       ["m"] = none ∧
     Printf DefaultLogThreshold DefaultStdoutThreshold initialState.trace
       "f" ["m"] = none ∧
     Println DefaultLogThreshold DefaultStdoutThreshold initialState.trace
       ["m"] = none) :=
  ⟨by decide, by decide,
   emit_below_both_thresholds_noop DefaultLogThreshold DefaultStdoutThreshold
     initialState.trace "f" ["m"] (by decide) (by decide)⟩

/-- C8: the level-name table holds exactly the eight names
TRACE … NONE in enumeration order, mapped to the eight level values in
strictly increasing order, and lookup is case-sensitive exact match. -/
theorem levelMatches_table_exact :
    LevelMatches.map Prod.fst =
      ["TRACE", "DEBUG", "INFO", "WARN", "ERROR", "CRITICAL", "FATAL",
       "NONE"] ∧
    LevelMatches.map Prod.snd =
      [LevelTrace, LevelDebug, LevelInfo, LevelWarn, LevelError,
       LevelCritical, LevelFatal, LevelNone] ∧
    (LevelTrace < LevelDebug ∧ LevelDebug < LevelInfo ∧
     LevelInfo < LevelWarn ∧ LevelWarn < LevelError ∧
     LevelError < LevelCritical ∧ LevelCritical < LevelFatal ∧
     LevelFatal < LevelNone) ∧
    LevelMatches.length = 8 ∧
    List.lookup "TRACE" LevelMatches = some LevelTrace ∧
    List.lookup "DEBUG" LevelMatches = some LevelDebug ∧
    List.lookup "INFO" LevelMatches = some LevelInfo ∧
    List.lookup "WARN" LevelMatches = some LevelWarn ∧
    List.lookup "ERROR" LevelMatches = some LevelError ∧
    List.lookup "CRITICAL" LevelMatches = some LevelCritical ∧
    List.lookup "FATAL" LevelMatches = some LevelFatal ∧
    List.lookup "NONE" LevelMatches = some LevelNone ∧
    List.lookup "Trace" LevelMatches = none ∧
    List.lookup "trace" LevelMatches = none ∧
    List.lookup "None" LevelMatches = none := by
  decide

/-- C9: every configuration operation (threshold setters, flag setter,
log-file setter, and the underlying rebuild) leaves each pad's level
and prefix tag exactly as constructed; only `handle` and `logger` are
rewritten. -/
theorem operations_preserve_level_and_tag (s : State) (v : Int) (f : Nat)
    (path : String) (r : OpenResult) :
    (rebuildAll s).notePads.map padSig = s.notePads.map padSig ∧
    (SetLogThreshold s v).notePads.map padSig = s.notePads.map padSig ∧
    (SetStdoutThreshold s v).notePads.map padSig = s.notePads.map padSig ∧
    (SetLogFlag s f).notePads.map padSig = s.notePads.map padSig ∧
    ((SetLogFile s path r).1).notePads.map padSig = s.notePads.map padSig := by
  refine ⟨rfl, rfl, rfl, rfl, ?_⟩
  cases r <;> rfl

/-- C10: the `checkLevel` guard returns `false` exactly when the
resolution rule classifies the pad's level as discard, and after a
rebuild a `Print`, `Printf` or `Println` call produces a write if and
only if the resolution is not discard. -/
theorem checkLevel_matches_discard_resolution (s : State) (n : NotePad)
    (format : String) (vs : List String) :
    (checkLevel s.logThreshold s.outputThreshold n = false ↔
      resolve s.logThreshold s.outputThreshold n.level =
        Resolution.discard) ∧
    ((Print s.logThreshold s.outputThreshold (rebuildPad s n) vs).isSome =
        true ↔
      ¬ resolve s.logThreshold s.outputThreshold n.level =
          Resolution.discard) ∧
    ((Printf s.logThreshold s.outputThreshold (rebuildPad s n) format
          vs).isSome = true ↔
      ¬ resolve s.logThreshold s.outputThreshold n.level =
          Resolution.discard) ∧
    ((Println s.logThreshold s.outputThreshold (rebuildPad s n) vs).isSome =
        true ↔
      ¬ resolve s.logThreshold s.outputThreshold n.level =
          Resolution.discard) := by
  have h := (resolve_eq_iff s.logThreshold s.outputThreshold n.level).1
  have hcheck : checkLevel s.logThreshold s.outputThreshold n = false ↔
      n.level < s.logThreshold ∧ n.level < s.outputThreshold := by
    unfold checkLevel
    split_ifs with hc
    · simp only [true_iff]
      exact ⟨hc.2, hc.1⟩
    · simp only [reduceCtorEq, false_iff, not_and]
      intro hl ho
      exact hc ⟨ho, hl⟩
  have htrue : checkLevel s.logThreshold s.outputThreshold n = true ↔
      ¬ resolve s.logThreshold s.outputThreshold n.level =
          Resolution.discard := by
    rw [h]
    constructor
    · intro ht hconj
      have hf := hcheck.mpr hconj
      rw [ht] at hf
      exact Bool.noConfusion hf
    · intro hnc
      rcases Bool.eq_false_or_eq_true
          (checkLevel s.logThreshold s.outputThreshold n) with hb | hb
      · exact hb
      · exact absurd (hcheck.mp hb) hnc
  have hlvl : (rebuildPad s n).level = n.level := rfl
  have hPrint :
      (Print s.logThreshold s.outputThreshold (rebuildPad s n) vs).isSome =
        checkLevel s.logThreshold s.outputThreshold n := by
    unfold Print checkLevel
    simp only [hlvl]
    split_ifs <;> simp_all
  have hPrintf :
      (Printf s.logThreshold s.outputThreshold (rebuildPad s n) format
          vs).isSome =
        checkLevel s.logThreshold s.outputThreshold n := by
    unfold Printf checkLevel
    simp only [hlvl]
    split_ifs <;> simp_all
  have hPrintln :
      (Println s.logThreshold s.outputThreshold (rebuildPad s n) vs).isSome =
        checkLevel s.logThreshold s.outputThreshold n := by
    unfold Println checkLevel
    simp only [hlvl]
    split_ifs <;> simp_all
  refine ⟨by rw [hcheck, h], ?_, ?_, ?_⟩
  · rw [hPrint]
    exact htrue
  · rw [hPrintf]
    exact htrue
  · rw [hPrintln]
    exact htrue

end GoLogger

namespace GoLogger

/-- A state reachable through the public setters in which both
thresholds equal `LevelFatal`. -/
def fatalThresholdState : State :=
  SetStdoutThreshold (SetLogThreshold initialState LevelFatal) LevelFatal

/-- Counterexample to C2: at the default thresholds (both Info), a
fatal-variant call on the Trace-level pad is a no-op — the process is
not terminated and nothing is written; likewise the abort variant
raises nothing. -/
theorem fatal_trace_default_thresholds_noop :
    initialState.logThreshold = DefaultLogThreshold ∧
    initialState.outputThreshold = DefaultStdoutThreshold ∧
    Fatal initialState.logThreshold initialState.outputThreshold
      initialState.trace ["boom"] = Outcome.noop ∧
    Fatalf initialState.logThreshold initialState.outputThreshold
      initialState.trace "f" ["boom"] = Outcome.noop ∧
    Fatalln initialState.logThreshold initialState.outputThreshold
      initialState.trace ["boom"] = Outcome.noop ∧
    Panic initialState.logThreshold initialState.outputThreshold
      initialState.trace ["boom"] = Outcome.noop ∧
    Panicf initialState.logThreshold initialState.outputThreshold
      initialState.trace "f" ["boom"] = Outcome.noop ∧
    Panicln initialState.logThreshold initialState.outputThreshold
      initialState.trace ["boom"] = Outcome.noop := by
  decide

/-- C2 (amended): a fatal-variant call writes its message and then
terminates the process with status 1, and an abort-variant call
writes and then panics, if and only if the `checkLevel` guard passes,
i.e. the pad's level is not strictly below both thresholds; otherwise
every variant is a no-op. -/
theorem fatal_abort_variants_gated (logT outT : Int) (n : NotePad)
    (format : String) (vs : List String) :
    (checkLevel logT outT n = true ↔
      ¬(n.level < logT ∧ n.level < outT)) ∧
    (Fatal logT outT n vs = Outcome.exited 1 (mkWrite n (Msg.print vs)) ↔
      checkLevel logT outT n = true) ∧
    (Fatal logT outT n vs = Outcome.noop ↔
      checkLevel logT outT n = false) ∧
    (Fatalf logT outT n format vs =
        Outcome.exited 1 (mkWrite n (Msg.printf format vs)) ↔
      checkLevel logT outT n = true) ∧
    (Fatalf logT outT n format vs = Outcome.noop ↔
      checkLevel logT outT n = false) ∧
    (Fatalln logT outT n vs = Outcome.exited 1 (mkWrite n (Msg.println vs)) ↔
      checkLevel logT outT n = true) ∧
    (Fatalln logT outT n vs = Outcome.noop ↔
      checkLevel logT outT n = false) ∧
    (Panic logT outT n vs = Outcome.panicked (mkWrite n (Msg.print vs)) ↔
      checkLevel logT outT n = true) ∧
    (Panic logT outT n vs = Outcome.noop ↔
      checkLevel logT outT n = false) ∧
    (Panicf logT outT n format vs =
        Outcome.panicked (mkWrite n (Msg.printf format vs)) ↔
      checkLevel logT outT n = true) ∧
    (Panicf logT outT n format vs = Outcome.noop ↔
      checkLevel logT outT n = false) ∧
    (Panicln logT outT n vs = Outcome.panicked (mkWrite n (Msg.println vs)) ↔
      checkLevel logT outT n = true) ∧
    (Panicln logT outT n vs = Outcome.noop ↔
      checkLevel logT outT n = false) := by
  have hch : checkLevel logT outT n = true ↔
      ¬(n.level < logT ∧ n.level < outT) := by
    unfold checkLevel
    split_ifs with hc
    · simp only [Bool.false_eq_true, false_iff, not_not]
      exact ⟨hc.2, hc.1⟩
    · simp only [true_iff]
      exact fun hn => hc ⟨hn.2, hn.1⟩
  refine ⟨hch, ?_⟩
  rcases Bool.eq_false_or_eq_true (checkLevel logT outT n) with hb | hb <;>
    simp [Fatal, Fatalf, Fatalln, Panic, Panicf, Panicln, hb]

/-- Counterexample to C4: with both thresholds at `LevelFatal`
(reachable through the public setters), a failing `SetLogFile`
returns the error and leaves the state unchanged but writes no
Critical diagnostic line to any sink. -/
theorem setLogFile_err_no_line_at_fatal_thresholds :
    SetLogFile fatalThresholdState "/bad/path" (OpenResult.err "open failed") =
      (fatalThresholdState, none, some "open failed") := by
  decide

/-- C4 (amended): on a failed open, `SetLogFile` returns the error and
leaves the whole state — in particular the log sink — unchanged; the
error path invokes the Critical-level logger's `Println`, whose line
is actually written iff the Critical pad clears the `checkLevel`
guard; and a subsequent emit through any rebuilt pad whose level is at
or above the log threshold still produces a write reaching the old
log sink. -/
theorem setLogFile_err_preserves_state (s : State) (path e : String)
    (n : NotePad) (vs : List String)
    (hlvl : s.logThreshold ≤ n.level) :
    (SetLogFile s path (OpenResult.err e)).1 = s ∧
    (SetLogFile s path (OpenResult.err e)).2.2 = some e ∧
    (SetLogFile s path (OpenResult.err e)).2.1 =
      Println s.logThreshold s.outputThreshold s.critical
        ["Failed to open log file:", path, e] ∧
    ((SetLogFile s path (OpenResult.err e)).2.1 ≠ none ↔
      checkLevel s.logThreshold s.outputThreshold s.critical = true) ∧
    ∃ w, Print s.logThreshold s.outputThreshold (rebuildPad s n) vs =
        some w ∧
      reaches w.dest s.logHandle = true := by
  refine ⟨rfl, rfl, rfl, ?_, ?_⟩
  · rcases Bool.eq_false_or_eq_true
        (checkLevel s.logThreshold s.outputThreshold s.critical) with hb | hb <;>
      simp [SetLogFile, Println, hb]
  · have hcheck :
        checkLevel s.logThreshold s.outputThreshold (rebuildPad s n) = true := by
      unfold checkLevel
      have hl : (rebuildPad s n).level = n.level := rfl
      rw [hl]
      split_ifs with hc
      · omega
      · rfl
    refine ⟨mkWrite (rebuildPad s n) (Msg.print vs), ?_, ?_⟩
    · simp [Print, hcheck]
    · show reaches (rebuildPad s n).logger.out s.logHandle = true
      unfold rebuildPad
      split_ifs with h1 h2 h3
      · omega
      · show reaches (Handle.multi s.logHandle s.outHandle) s.logHandle = true
        simp [reaches, reaches_self]
      · omega
      · exact reaches_self s.logHandle

/-- Witness for C4 (amended) at a concrete input: the initial state
and its Info-level pad (whose level equals the default log
threshold). -/
theorem setLogFile_err_preserves_state_witness :
    initialState.logThreshold ≤ initialState.info.level ∧
    ((SetLogFile initialState "p" (OpenResult.err "e")).1 = initialState ∧
     (SetLogFile initialState "p" (OpenResult.err "e")).2.2 = some "e" ∧
     (SetLogFile initialState "p" (OpenResult.err "e")).2.1 =
       Println initialState.logThreshold initialState.outputThreshold
         initialState.critical ["Failed to open log file:", "p", "e"] ∧
     ((SetLogFile initialState "p" (OpenResult.err "e")).2.1 ≠ none ↔
       checkLevel initialState.logThreshold initialState.outputThreshold
         initialState.critical = true) ∧
     ∃ w, Print initialState.logThreshold initialState.outputThreshold
         (rebuildPad initialState initialState.info) ["m"] = some w ∧
       reaches w.dest initialState.logHandle = true) :=
  ⟨by decide,
   setLogFile_err_preserves_state initialState "p" "e" initialState.info
     ["m"] (by decide)⟩

end GoLogger

namespace GoLogger

/-- C5: `levelCheck` clamps every input into `[LevelTrace,
LevelFatal]` — values at or below Trace become Trace, values at or
above Fatal (including the None sentinel) become Fatal — and both
threshold setters install exactly the clamped value, so `LevelNone`
is never the resulting threshold. -/
theorem setters_clamp_levels (s : State) (v : Int) :
    LevelTrace ≤ levelCheck v ∧
    levelCheck v ≤ LevelFatal ∧
    (v ≤ LevelTrace → levelCheck v = LevelTrace) ∧
    (LevelFatal ≤ v → levelCheck v = LevelFatal) ∧
    levelCheck v ≠ LevelNone ∧
    (SetLogThreshold s v).logThreshold = levelCheck v ∧
    (SetStdoutThreshold s v).outputThreshold = levelCheck v := by
  refine ⟨?_, ?_, ?_, ?_, ?_, rfl, rfl⟩ <;>
    · simp only [levelCheck, LevelTrace, LevelFatal, LevelNone]
      split_ifs <;> omega

/-- Witness for C5 at the concrete input `LevelNone` (the value the
claim singles out) on the initial state. -/
theorem setters_clamp_levels_witness :
    LevelTrace ≤ levelCheck LevelNone ∧
    levelCheck LevelNone ≤ LevelFatal ∧
    (LevelNone ≤ LevelTrace → levelCheck LevelNone = LevelTrace) ∧
    (LevelFatal ≤ LevelNone → levelCheck LevelNone = LevelFatal) ∧
    levelCheck LevelNone ≠ LevelNone ∧
    (SetLogThreshold initialState LevelNone).logThreshold =
      levelCheck LevelNone ∧
    (SetStdoutThreshold initialState LevelNone).outputThreshold =
      levelCheck LevelNone :=
  setters_clamp_levels initialState LevelNone

/-- C6: calling `SetLogThreshold`, `SetStdoutThreshold` or
`SetLogFlag` twice in succession with the same argument produces
exactly the same state — in particular the same handle resolution for
every Writer — as calling it once. -/
theorem setters_idempotent (s : State) (v : Int) (f : Nat) :
    SetLogThreshold (SetLogThreshold s v) v = SetLogThreshold s v ∧
    SetStdoutThreshold (SetStdoutThreshold s v) v = SetStdoutThreshold s v ∧
    SetLogFlag (SetLogFlag s f) f = SetLogFlag s f := by
  exact ⟨rfl, rfl, rfl⟩

/-- The state after opening a log file on the freshly initialised
package: both thresholds still at the default (Info), log sink a real
file. -/
def scenarioInfoState : State :=
  (SetLogFile initialState "log.txt" (OpenResult.ok 0)).1

/-- The same state after raising the log threshold to Error (stdout
threshold stays Info). -/
def scenarioErrorState : State :=
  SetLogThreshold scenarioInfoState LevelError

/-- Whether an emission result wrote something that reaches sink `t`. -/
def writesTo (o : Option Write) (t : Handle) : Bool :=
  match o with
  | none => false
  | some w => reaches w.dest t

/-- C7: with both thresholds at Info, a Debug emission produces no
output anywhere while Info and Warn emissions reach both the console
sink and the log sink; with log threshold Error and stdout threshold
Info, a Warn emission reaches the console sink only and an Error
emission reaches both. -/
theorem scenario_threshold_routing :
    scenarioInfoState.logThreshold = LevelInfo ∧
    scenarioInfoState.outputThreshold = LevelInfo ∧
    Print scenarioInfoState.logThreshold scenarioInfoState.outputThreshold
      scenarioInfoState.debug ["m"] = none ∧
    writesTo
      (Print scenarioInfoState.logThreshold scenarioInfoState.outputThreshold
        scenarioInfoState.info ["m"]) scenarioInfoState.outHandle = true ∧
    writesTo
      (Print scenarioInfoState.logThreshold scenarioInfoState.outputThreshold
        scenarioInfoState.info ["m"]) scenarioInfoState.logHandle = true ∧
    writesTo
      (Print scenarioInfoState.logThreshold scenarioInfoState.outputThreshold
        scenarioInfoState.warn ["m"]) scenarioInfoState.outHandle = true ∧
    writesTo
      (Print scenarioInfoState.logThreshold scenarioInfoState.outputThreshold
        scenarioInfoState.warn ["m"]) scenarioInfoState.logHandle = true ∧
    scenarioErrorState.logThreshold = LevelError ∧
    scenarioErrorState.outputThreshold = LevelInfo ∧
    writesTo
      (Print scenarioErrorState.logThreshold scenarioErrorState.outputThreshold
        scenarioErrorState.warn ["m"]) scenarioErrorState.outHandle = true ∧
    writesTo
      (Print scenarioErrorState.logThreshold scenarioErrorState.outputThreshold
        scenarioErrorState.warn ["m"]) scenarioErrorState.logHandle = false ∧
    writesTo
      (Print scenarioErrorState.logThreshold scenarioErrorState.outputThreshold
        scenarioErrorState.error ["m"]) scenarioErrorState.outHandle = true ∧
    writesTo
      (Print scenarioErrorState.logThreshold scenarioErrorState.outputThreshold
        scenarioErrorState.error ["m"]) scenarioErrorState.logHandle = true := by
  decide

end GoLogger
